import Mathlib

/-!
Shallow embedding of the campo-vision authentication core and request handlers.

The Python sources embedded here are:
  * src/layers/python/auth.py        (validate_token, get_token_from_header, require_auth)
  * src/functions/common/auth.py     (get_public_keys, verify_token, extract_token_from_header)
  * src/functions/ingest-telemetry/app.py   (lambda_handler)
  * src/functions/get-telemetry/app.py      (lambda_handler)
  * src/functions/manage-company/app.py     (lambda_handler, get/create/update/delete_company)

External collaborators (urllib fetch of the JWKS, the RSA signature primitive,
the system clock, DynamoDB tables, uuid/now generators) are passed as explicit
arguments.  Library functions with fixed deterministic behaviour that the code
relies on (Python str.split, base64 decoding, json.loads, the python-jose
token loading helpers) are modelled concretely below.  Text is modelled at the
level of ASCII characters: byte strings are lists of naturals and decoding a
byte string as UTF-8 is modelled as requiring all bytes below 128 (every token
and body considered in this development is ASCII).
-/

namespace CampoVision

/-! ## Python string primitives (List Char based, kernel friendly) -/

/-- Split a list at every occurrence of the separator, Python str.split(sep):
the empty input yields one empty field. -/
def listSplitOn (sep : Char) : List Char → List (List Char)
  | [] => [[]]
  | c :: cs =>
    match listSplitOn sep cs with
    | [] => if c = sep then [[], []] else [[c]]
    | f :: fs => if c = sep then [] :: f :: fs else (c :: f) :: fs

/-- Python token.split(sep) on strings. -/
def pySplit (sep : Char) (s : String) : List String :=
  (listSplitOn sep s.data).map String.mk

/-- Python str.split() with no argument: split on runs of whitespace,
discarding empty fields. -/
def pySplitWs (s : String) : List String :=
  (s.data.splitOnP (fun c => c = ' ' || c = '\t' || c = '\n' || c = '\r')).map String.mk
    |>.filter (fun t => t ≠ "")

/-- ASCII lower-casing of one character (Python str.lower on the ASCII range). -/
def asciiLower (c : Char) : Char :=
  if 65 ≤ c.toNat ∧ c.toNat ≤ 90 then Char.ofNat (c.toNat + 32) else c

/-- ASCII lower-casing of a string. -/
def pyLower (s : String) : String :=
  String.mk (s.data.map asciiLower)

/-- Python str.replace(old, new): replace every occurrence, left to right. -/
def listReplace (old new : List Char) : Nat → List Char → List Char
  | 0, _ => []
  | _, [] => []
  | Nat.succ fuel, c :: cs =>
    if old ≠ [] ∧ (c :: cs).take old.length = old then
      new ++ listReplace old new fuel ((c :: cs).drop old.length)
    else
      c :: listReplace old new fuel cs

/-- Python str.replace on strings. -/
def pyReplace (s old new : String) : String :=
  String.mk (listReplace old.data new.data s.data.length s.data)

/-- Python str.rsplit(sep, 1): split once at the last separator. -/
def pyRsplit1 (sep : Char) (s : String) : List String :=
  match (pySplit sep s).reverse with
  | [] => [s]
  | [_] => [s]
  | last :: before => [String.intercalate (String.mk [sep]) before.reverse, last]

/-- Python str.split(sep, 1): split once at the first separator. -/
def pySplit1 (sep : Char) (s : String) : List String :=
  match pySplit sep s with
  | [] => [s]
  | [_] => [s]
  | first :: rest => [first, String.intercalate (String.mk [sep]) rest]

/-- Bytes of an ASCII string (the development only handles ASCII text). -/
def strBytes (s : String) : List Nat := s.data.map Char.toNat

/-- Python bytes.decode(utf-8), restricted to ASCII: every byte below 128. -/
def bytesToStr (bs : List Nat) : Option String :=
  if bs.all (fun b => b < 128) then some (String.mk (bs.map Char.ofNat)) else none

/-! ## Lenient base64 (Python base64.b64decode with validate=False)

Observed CPython behaviour: characters outside the alphabet (including '.')
are discarded wherever they occur; with n remaining data characters and p
padding characters, decoding succeeds iff n % 4 = 0, or n % 4 = 2 and p ≥ 2,
or n % 4 = 3 and p ≥ 1; the data characters are then decoded in quads with a
trailing pair giving one byte and a trailing triple giving two bytes. -/

/-- Index of a character in the standard base64 alphabet. -/
def b64StdIdx (c : Char) : Option Nat :=
  let n := c.toNat
  if 65 ≤ n ∧ n ≤ 90 then some (n - 65)
  else if 97 ≤ n ∧ n ≤ 122 then some (n - 97 + 26)
  else if 48 ≤ n ∧ n ≤ 57 then some (n - 48 + 52)
  else if c = '+' then some 62
  else if c = '/' then some 63
  else none

/-- Index of a character in the url-safe base64 alphabet. -/
def b64UrlIdx (c : Char) : Option Nat :=
  let n := c.toNat
  if 65 ≤ n ∧ n ≤ 90 then some (n - 65)
  else if 97 ≤ n ∧ n ≤ 122 then some (n - 97 + 26)
  else if 48 ≤ n ∧ n ≤ 57 then some (n - 48 + 52)
  else if c = '-' then some 62
  else if c = '_' then some 63
  else none

/-- Decode a list of 6-bit groups into bytes (quads to triples, a trailing
pair to one byte, a trailing triple to two bytes). -/
def b64Groups : List Nat → List Nat
  | a :: b :: c :: d :: rest =>
    (a * 4 + b / 16) :: ((b % 16) * 16 + c / 4) :: ((c % 4) * 64 + d) :: b64Groups rest
  | [a, b] => [a * 4 + b / 16]
  | [a, b, c] => [a * 4 + b / 16, (b % 16) * 16 + c / 4]
  | _ => []

/-- Lenient base64 decoding over a chosen alphabet, as performed by Python
base64.b64decode(s, validate=False). -/
def pyB64DecodeWith (idx : Char → Option Nat) (s : String) : Option (List Nat) :=
  let data := s.data.filterMap idx
  let pads := (s.data.filter (fun c => c = '=')).length
  if data.length % 4 = 0 ∨ (data.length % 4 = 2 ∧ 2 ≤ pads)
      ∨ (data.length % 4 = 3 ∧ 1 ≤ pads) then
    some (b64Groups data)
  else none

/-- Python base64.b64decode (standard alphabet, lenient). -/
def pyB64Decode (s : String) : Option (List Nat) :=
  pyB64DecodeWith b64StdIdx s

/-- Python base64.urlsafe_b64decode (url-safe alphabet, lenient). -/
def pyB64UrlDecode (s : String) : Option (List Nat) :=
  pyB64DecodeWith b64UrlIdx s

/-- jose.utils.base64url_decode: pad the raw input to a multiple of four
characters, then urlsafe_b64decode. -/
def joseB64urlDecode (s : String) : Option (List Nat) :=
  let rem := s.data.length % 4
  let padded := if rem = 0 then s else s ++ String.mk (List.replicate (4 - rem) '=')
  pyB64UrlDecode padded

/-- Unpadded url-safe base64 encoding of a byte list (used only to build the
concrete tokens appearing in witnesses and counterexamples). -/
def b64UrlAlphabet : List Char :=
  "ABCDEFGHIJKLMNOPQRSTUVWXYZabcdefghijklmnopqrstuvwxyz0123456789-_".data

/-- Encode 6-bit groups of a byte list. -/
def b64EncGroups : List Nat → List Nat
  | a :: b :: c :: rest =>
    (a / 4) :: ((a % 4) * 16 + b / 16) :: ((b % 16) * 4 + c / 64) :: (c % 64) :: b64EncGroups rest
  | [a, b] => [a / 4, (a % 4) * 16 + b / 16, (b % 16) * 4]
  | [a] => [a / 4, (a % 4) * 16]
  | [] => []

/-- Unpadded url-safe base64 encoding. -/
def b64UrlEncode (bs : List Nat) : String :=
  String.mk ((b64EncGroups bs).map (fun g => b64UrlAlphabet.getD g 'A'))

/-! ## JSON values (the image of Python json.loads)

Numbers are modelled as integers: every token and body considered in this
development carries integral numeric values, and the parser rejects
fractional or exponent notation.  Objects keep their key/value pairs in
parse order; the objects handled here have distinct keys. -/

inductive Json where
  | null : Json
  | bool : Bool → Json
  | num : Int → Json
  | str : String → Json
  | arr : List Json → Json
  | obj : List (String × Json) → Json

mutual
/-- Structural equality of JSON values (Python ==; the values compared by the
embedded code are strings and numbers, where this coincides exactly). -/
def jsonEq : Json → Json → Bool
  | .null, .null => true
  | .bool a, .bool b => a = b
  | .num a, .num b => a = b
  | .str a, .str b => a = b
  | .arr a, .arr b => jsonEqList a b
  | .obj a, .obj b => jsonEqObj a b
  | _, _ => false

/-- Elementwise equality of JSON arrays. -/
def jsonEqList : List Json → List Json → Bool
  | [], [] => true
  | a :: as, b :: bs => jsonEq a b && jsonEqList as bs
  | _, _ => false

/-- Pairwise equality of JSON objects (in order). -/
def jsonEqObj : List (String × Json) → List (String × Json) → Bool
  | [], [] => true
  | (k, a) :: as, (l, b) :: bs => k = l && jsonEq a b && jsonEqObj as bs
  | _, _ => false
end

/-- Python dict lookup d.get(k) on a JSON value: none unless the value is an
object containing the key (first occurrence). -/
def jGet (j : Json) (k : String) : Option Json :=
  match j with
  | .obj kvs => (kvs.find? (fun kv => kv.fst = k)).map Prod.snd
  | _ => none

/-- Python key membership k in d for a JSON object. -/
def jHasKey (j : Json) (k : String) : Bool :=
  match j with
  | .obj kvs => kvs.any (fun kv => kv.fst = k)
  | _ => false

/-- Python truthiness of a JSON value. -/
def pyTruthy : Json → Bool
  | .null => false
  | .bool b => b
  | .num n => n ≠ 0
  | .str s => s ≠ ""
  | .arr l => !l.isEmpty
  | .obj l => !l.isEmpty

/-- Python truthiness of an optional JSON value (a missing value is None). -/
def optTruthy : Option Json → Bool
  | none => false
  | some j => pyTruthy j

/-! ## json.loads -/

/-- The '\x7b' character. -/
def lbrace : Char := Char.ofNat 123

/-- The '\x7d' character. -/
def rbrace : Char := Char.ofNat 125

/-- JSON whitespace. -/
def jsonWs (c : Char) : Bool :=
  c = ' ' || c = '\t' || c = '\n' || c = '\r'

/-- Skip JSON whitespace. -/
def skipWs : List Char → List Char
  | c :: cs => if jsonWs c then skipWs cs else c :: cs
  | [] => []

/-- Scan a JSON string body after the opening quote; supports the escapes
appearing in this development and rejects raw control characters. -/
def scanJStr : List Char → Option (List Char × List Char)
  | [] => none
  | c :: cs =>
    if c = '\"' then some ([], cs)
    else if c = '\\' then
      match cs with
      | e :: cs2 =>
        let esc : Option Char :=
          if e = '\"' then some '\"'
          else if e = '\\' then some '\\'
          else if e = '/' then some '/'
          else if e = 'n' then some '\n'
          else if e = 't' then some '\t'
          else if e = 'r' then some '\r'
          else none
        match esc with
        | some ch => (scanJStr cs2).map (fun r => (ch :: r.fst, r.snd))
        | none => none
      | [] => none
    else if c.toNat < 32 then none
    else (scanJStr cs).map (fun r => (c :: r.fst, r.snd))

/-- Digits to a natural number. -/
def digitsToNat (ds : List Char) : Nat :=
  ds.foldl (fun n c => n * 10 + (c.toNat - 48)) 0

mutual
/-- Parse one JSON value; integral numbers only (fractions and exponents are
rejected, see the note on Json). -/
def parseJVal : Nat → List Char → Option (Json × List Char)
  | 0, _ => none
  | Nat.succ fuel, input =>
    match skipWs input with
    | [] => none
    | c :: cs =>
      if c = lbrace then
        match skipWs cs with
        | d :: ds =>
          if d = rbrace then some (.obj [], ds)
          else parseJMembers fuel (d :: ds)
        | [] => none
      else if c = '[' then
        match skipWs cs with
        | d :: ds =>
          if d = ']' then some (.arr [], ds)
          else parseJItems fuel (d :: ds)
        | [] => none
      else if c = '\"' then
        (scanJStr cs).map (fun r => (.str (String.mk r.fst), r.snd))
      else if c = 't' then
        if cs.take 3 = "rue".data then some (.bool true, cs.drop 3) else none
      else if c = 'f' then
        if cs.take 4 = "alse".data then some (.bool false, cs.drop 4) else none
      else if c = 'n' then
        if cs.take 3 = "ull".data then some (.null, cs.drop 3) else none
      else if c = '-' then
        match cs.takeWhile Char.isDigit, cs.dropWhile Char.isDigit with
        | [], _ => none
        | ds, rest =>
          match rest with
          | r :: _ =>
            if r = '.' || r = 'e' || r = 'E' then none
            else some (.num (-(digitsToNat ds : Int)), rest)
          | [] => some (.num (-(digitsToNat ds : Int)), rest)
      else if c.isDigit then
        match (c :: cs).takeWhile Char.isDigit, (c :: cs).dropWhile Char.isDigit with
        | ds, rest =>
          match rest with
          | r :: _ =>
            if r = '.' || r = 'e' || r = 'E' then none
            else some (.num (digitsToNat ds : Int), rest)
          | [] => some (.num (digitsToNat ds : Int), rest)
      else none

/-- Parse the members of a JSON object, positioned at the first key. -/
def parseJMembers : Nat → List Char → Option (Json × List Char)
  | 0, _ => none
  | Nat.succ fuel, input =>
    match skipWs input with
    | c :: cs =>
      if c = '\"' then
        match scanJStr cs with
        | some (key, rest1) =>
          match skipWs rest1 with
          | d :: ds =>
            if d = ':' then
              match parseJVal fuel ds with
              | some (v, rest2) =>
                match skipWs rest2 with
                | e :: es =>
                  if e = rbrace then some (.obj [(String.mk key, v)], es)
                  else if e = ',' then
                    match parseJMembers fuel es with
                    | some (.obj kvs, rest3) => some (.obj ((String.mk key, v) :: kvs), rest3)
                    | _ => none
                  else none
                | [] => none
              | none => none
            else none
          | [] => none
        | none => none
      else none
    | [] => none

/-- Parse the items of a JSON array, positioned at the first item. -/
def parseJItems : Nat → List Char → Option (Json × List Char)
  | 0, _ => none
  | Nat.succ fuel, input =>
    match parseJVal fuel input with
    | some (v, rest) =>
      match skipWs rest with
      | e :: es =>
        if e = ']' then some (.arr [v], es)
        else if e = ',' then
          match parseJItems fuel es with
          | some (.arr vs, rest2) => some (.arr (v :: vs), rest2)
          | _ => none
        else none
      | [] => none
    | none => none
end

/-- Python json.loads: parse one value and require only whitespace after it. -/
def jsonLoads (s : String) : Option Json :=
  match parseJVal (s.data.length + 1) s.data with
  | some (v, rest) => if skipWs rest = [] then some v else none
  | none => none

/-! ## python-jose token loading (jose.jws._load and the jwt wrappers)

jose splits the token at its last dot into signing input and signature, the
signing input at its first dot into header and claims segments, base64url
decodes all three parts (leniently, so dots inside the claims segment are
discarded), and requires the header to decode to a JSON object. -/

/-- jose.jws._load: header object, payload bytes, signing input, signature
bytes; none when jose raises. -/
def joseLoad (token : String) : Option (Json × List Nat × String × List Nat) :=
  match pyRsplit1 '.' token with
  | [signingInput, cryptoSegment] =>
    match pySplit1 '.' signingInput with
    | [headerSegment, claimsSegment] =>
      match joseB64urlDecode headerSegment with
      | none => none
      | some headerData =>
        match bytesToStr headerData with
        | none => none
        | some headerText =>
          match jsonLoads headerText with
          | some (.obj h) =>
            match joseB64urlDecode claimsSegment with
            | none => none
            | some payload =>
              match joseB64urlDecode cryptoSegment with
              | none => none
              | some signature => some (.obj h, payload, signingInput, signature)
          | _ => none
    | _ => none
  | _ => none

/-- jose.jwt.get_unverified_headers. -/
def getUnverifiedHeaders (token : String) : Option Json :=
  (joseLoad token).map (fun r => r.fst)

/-- jose.jwt.get_unverified_claims: the payload bytes decoded as text and
parsed as JSON, which must be an object. -/
def getUnverifiedClaims (token : String) : Option Json :=
  match joseLoad token with
  | none => none
  | some (_, payload, _, _) =>
    match bytesToStr payload with
    | none => none
    | some text =>
      match jsonLoads text with
      | some (.obj kvs) => some (.obj kvs)
      | _ => none

/-! ## Authentication failures

One constructor per raise site of the two authentication modules; at the
handler boundary they all collapse into a 401 response. -/

inductive AuthErr where
  | tokenInvalid          -- validate_token: fewer than two dot segments
  | headerDecodeError     -- validate_token: base64/utf-8/json failure on the header segment
  | headerMissingKid      -- validate_token / verify_token: KeyError on header kid
  | keyFetchError         -- JWKS fetch or its json/keys extraction failed
  | keyEntryError         -- scanning the key list failed (entry without kid, or keys not a list)
  | unknownKey            -- no key in the JWKS matches the token kid
  | signatureIndexError   -- validate_token: IndexError on the missing third segment
  | signatureDecodeError  -- validate_token: base64url failure on the signature segment
  | signatureInvalid      -- signature verification failed
  | claimsDecodeError     -- jwt.get_unverified_claims raised
  | missingTokenUse       -- KeyError on token_use
  | invalidTokenUse       -- token_use outside access and id
  | clientMismatch        -- client_id/aud absent or different from the configured client
  | missingExp            -- KeyError on exp
  | expTypeError          -- exp not comparable with the clock
  | tokenExpired          -- exp in the past
  | missingHeaders        -- get_token_from_header: KeyError on event headers
  | missingAuthHeader     -- no Authorization header value
  | malformedAuthHeader   -- Authorization value not of the two-part Bearer shape
  deriving DecidableEq

/-- Python truthiness of an optional string. -/
def optStrTruthy : Option String → Bool
  | none => false
  | some s => s ≠ ""

/-- Case-sensitive lookup in a header mapping (Python dict .get). -/
def lookupHeader (hs : List (String × String)) (k : String) : Option String :=
  (hs.find? (fun kv => kv.fst = k)).map Prod.snd

/-- Inbound request event: the fields of the Lambda event that the embedded
handlers read. -/
structure Event where
  httpMethod : Option String := none
  headers : Option (List (String × String)) := none
  queryStringParameters : Option (List (String × String)) := none
  body : Option String := none

/-! ## src/layers/python/auth.py -/

/-- Environment of the Lambda layer module: USER_POOL_ID, USER_POOL_CLIENT_ID
(both possibly absent) and AWS_REGION (defaulted to us-east-1 at read time). -/
structure LayerEnv where
  USER_POOL_ID : Option String := none
  USER_POOL_CLIENT_ID : Option String := none
  AWS_REGION : String := "us-east-1"

/-- Header parse of validate_token, line 38:
json.loads(base64.b64decode(token_sections[0] + '==').decode('utf-8')). -/
def layerHeader (token : String) : Option Json :=
  match pyB64Decode ((pySplit '.' token).headD "" ++ "==") with
  | none => none
  | some bs =>
    match bytesToStr bs with
    | none => none
    | some text => jsonLoads text

/-- Key scan of validate_token, lines 48-52: the first key whose kid equals
the token kid; an entry without a kid raises. -/
def layerFindKey (keys : List Json) (kid : Json) : Except AuthErr (Option Json) :=
  match keys with
  | [] => .ok none
  | k :: ks =>
    match jGet k "kid" with
    | none => .error .keyEntryError
    | some kk => if jsonEq kk kid then .ok (some k) else layerFindKey ks kid

/-- Python equality of a (truthy) claims value with the configured client id
string: client_id != USER_POOL_CLIENT_ID is false only for an equal string. -/
def clientMatches (cid : Option Json) (expected : Option String) : Bool :=
  match cid, expected with
  | some (.str s), some e => s = e
  | _, _ => false

/-- validate_token of the Lambda layer, instrumented with a Boolean recording
whether the JWKS endpoint was fetched on this call (the source performs the
urlopen inline on every call, lines 42-45).  Collaborators: jwks is the
parsed body of the JWKS fetch (none when the fetch or its JSON parse raises);
rsaVerify is jose public_key.verify on the constructed key, the signing input
and the decoded signature bytes; now is time.time() in epoch seconds. -/
def validate_tokenR (env : LayerEnv) (jwks : Option Json)
    (rsaVerify : Json → String → List Nat → Bool) (now : Int) (token : String) :
    Bool × Except AuthErr Json :=
  let sections := pySplit '.' token
  if sections.length < 2 then (false, .error .tokenInvalid)
  else
    match layerHeader token with
    | none => (false, .error .headerDecodeError)
    | some header =>
      match jGet header "kid" with
      | none => (false, .error .headerMissingKid)
      | some kid =>
        match jwks with
        | none => (true, .error .keyFetchError)
        | some resp =>
          match jGet resp "keys" with
          | none => (true, .error .keyFetchError)
          | some keysJson =>
            match keysJson with
            | .arr keys =>
              match layerFindKey keys kid with
              | .error e => (true, .error e)
              | .ok none => (true, .error .unknownKey)
              | .ok (some key) =>
                match sections.get? 2 with
                | none => (true, .error .signatureIndexError)
                | some sigSeg =>
                  match joseB64urlDecode sigSeg with
                  | none => (true, .error .signatureDecodeError)
                  | some signature =>
                    let message := sections.headD "" ++ "." ++ (sections.get? 1).getD ""
                    if ¬ rsaVerify key message signature then
                      (true, .error .signatureInvalid)
                    else
                      match getUnverifiedClaims token with
                      | none => (true, .error .claimsDecodeError)
                      | some claims =>
                        match jGet claims "token_use" with
                        | none => (true, .error .missingTokenUse)
                        | some tu =>
                          if ¬ (jsonEq tu (.str "access") || jsonEq tu (.str "id")) then
                            (true, .error .invalidTokenUse)
                          else
                            let cid0 := jGet claims "client_id"
                            let cid := if optTruthy cid0 then cid0 else jGet claims "aud"
                            if ¬ optTruthy cid || ¬ clientMatches cid env.USER_POOL_CLIENT_ID then
                              (true, .error .clientMismatch)
                            else
                              match jGet claims "exp" with
                              | none => (true, .error .missingExp)
                              | some (.num e) =>
                                if now > e then (true, .error .tokenExpired)
                                else (true, .ok claims)
                              | some _ => (true, .error .expTypeError)
            | _ => (true, .error .keyEntryError)

/-- validate_token of the Lambda layer (result component). -/
def validate_token (env : LayerEnv) (jwks : Option Json)
    (rsaVerify : Json → String → List Nat → Bool) (now : Int) (token : String) :
    Except AuthErr Json :=
  (validate_tokenR env jwks rsaVerify now token).snd

/-- get_token_from_header of the Lambda layer (lines 95-124). -/
def get_token_from_header (event : Event) : Except AuthErr String :=
  match event.headers with
  | none => .error .missingHeaders
  | some hs =>
    let h1 := lookupHeader hs "Authorization"
    let auth := if optStrTruthy h1 then h1 else lookupHeader hs "authorization"
    if ¬ optStrTruthy auth then .error .missingAuthHeader
    else
      let parts := pySplitWs (auth.getD "")
      if parts.length ≠ 2 || pyLower (parts.headD "") ≠ "bearer" then
        .error .malformedAuthHeader
      else .ok ((parts.get? 1).getD "")

/-- require_auth of the Lambda layer (lines 126-144): OPTIONS requests skip
authentication and yield no claims; otherwise the extracted token is
validated. -/
def layer_require_auth (env : LayerEnv) (jwks : Option Json)
    (rsaVerify : Json → String → List Nat → Bool) (now : Int) (event : Event) :
    Except AuthErr (Option Json) :=
  if event.httpMethod = some "OPTIONS" then .ok none
  else
    match get_token_from_header event with
    | .error e => .error e
    | .ok token =>
      match validate_token env jwks rsaVerify now token with
      | .error e => .error e
      | .ok claims => .ok (some claims)

/-! ## src/functions/common/auth.py

This module keeps two pieces of module-level mutable state: the fetched key
set (global keys) and the most recently decoded claims (global claims).  Both
are modelled in AuthState and threaded explicitly.  Uncaught Python
exceptions (the key scan in verify_token runs outside every try block) are a
distinct outcome. -/

/-- Outcome of a Python call that may raise an uncaught exception. -/
inductive PyResult (α : Type) where
  | ok : α → PyResult α
  | raised : PyResult α

/-- Environment of the common auth module. -/
structure CommonEnv where
  COGNITO_USER_POOL_ID : Option String := none
  COGNITO_REGION : Option String := none
  AWS_REGION : Option String := none

/-- Module-level state of the common auth module. -/
structure AuthState where
  keys : Option Json := none
  claims : Option Json := none

/-- get_cognito_region (lines 48-55): COGNITO_REGION, else AWS_REGION, else
us-east-1. -/
def get_cognito_region (env : CommonEnv) : String :=
  match env.COGNITO_REGION with
  | some r => r
  | none =>
    match env.AWS_REGION with
    | some a => a
    | none => "us-east-1"

/-- get_cognito_user_pool_id (lines 39-46). -/
def get_cognito_user_pool_id (env : CommonEnv) : Option String :=
  env.COGNITO_USER_POOL_ID

/-- Result of one get_public_keys call: the new module state, the returned
value, and whether the JWKS endpoint was fetched during the call. -/
structure KeysCallResult where
  state : AuthState
  result : Option Json
  fetched : Bool

/-- get_public_keys (lines 19-37): return the cached global when truthy;
otherwise fetch the JWKS (the fetch collaborator is the parsed response body,
none when the fetch or its JSON parse raises), extract its keys member and
cache it.  A fetch whose body has no keys member returns None and caches
nothing. -/
def get_public_keys (fetch : Option Json) (st : AuthState) : KeysCallResult :=
  if optTruthy st.keys then ⟨st, st.keys, false⟩
  else
    match fetch with
    | none => ⟨st, none, true⟩
    | some resp =>
      match jGet resp "keys" with
      | some ks => ⟨{ st with keys := some ks }, some ks, true⟩
      | none => ⟨st, none, true⟩

/-- Key scan of verify_token (lines 79-83): first key whose kid equals the
token kid; an entry that is not an object with a kid raises an uncaught
exception. -/
def commonFindKey (keys : List Json) (kid : Json) : PyResult (Option Json) :=
  match keys with
  | [] => .ok none
  | k :: ks =>
    match jGet k "kid" with
    | none => .raised
    | some kk => if jsonEq kid kk then .ok (some k) else commonFindKey ks kid

/-- The expected issuer of verify_token line 118, built from the configured
region and pool id (an absent pool id renders as the string None, as a Python
f-string does). -/
def expectedIssuer (env : CommonEnv) : String :=
  "https://cognito-idp." ++ get_cognito_region env ++ ".amazonaws.com/"
    ++ ((get_cognito_user_pool_id env).getD "None")

/-- verify_token (lines 57-128).  The module-level claims global is returned
as-is when truthy (lines 61-63); otherwise the token headers are decoded, the
key set resolved through get_public_keys, the signature verified, and the
decoded claims assigned to the global before the expiration and issuer
checks, so a failing check still leaves them cached.  Python None results
are .ok none; an uncaught exception is .raised. -/
def verify_token (env : CommonEnv) (fetch : Option Json)
    (rsaVerify : Json → String → List Nat → Bool) (now : Int)
    (st : AuthState) (token : String) : AuthState × PyResult (Option Json) :=
  if optTruthy st.claims then (st, .ok st.claims)
  else
    match (getUnverifiedHeaders token).bind (fun h => jGet h "kid") with
    | none => (st, .ok none)
    | some kid =>
      let kc := get_public_keys fetch st
      if ¬ optTruthy kc.result then (kc.state, .ok none)
      else
        match kc.result with
        | some (.arr keys) =>
          match commonFindKey keys kid with
          | .raised => (kc.state, .raised)
          | .ok none => (kc.state, .ok none)
          | .ok (some key) =>
            match pyRsplit1 '.' token with
            | [message, encSig] =>
              match joseB64urlDecode encSig with
              | none => (kc.state, .raised)
              | some sigBytes =>
                if ¬ rsaVerify key message sigBytes then (kc.state, .ok none)
                else
                  match getUnverifiedClaims token with
                  | none => (kc.state, .ok none)
                  | some claims =>
                    let st2 := { kc.state with claims := some claims }
                    match jGet claims "exp" with
                    | some (.num e) =>
                      if now > e then (st2, .ok none)
                      else
                        match jGet claims "iss" with
                        | none => (st2, .ok none)
                        | some iss =>
                          if ¬ jsonEq iss (.str (expectedIssuer env)) then (st2, .ok none)
                          else (st2, .ok (some claims))
                    | some _ => (st2, .ok none)
                    | none => (st2, .ok none)
            | _ => (kc.state, .raised)
        | _ => (kc.state, .raised)

/-- extract_token_from_header (lines 130-152): Authorization then
authorization, Bearer form with exactly two whitespace-separated parts; all
failures return None. -/
def extract_token_from_header (event : Event) : Option String :=
  let hs := event.headers.getD []
  let a1 := lookupHeader hs "Authorization"
  let auth := if optStrTruthy a1 then a1 else lookupHeader hs "authorization"
  if ¬ optStrTruthy auth then none
  else
    match pySplitWs (auth.getD "") with
    | [] => none
    | p0 :: rest =>
      if pyLower p0 ≠ "bearer" || (p0 :: rest).length ≠ 2 then none
      else some ((rest.get? 0).getD "")

/-! ## Handler plumbing -/

/-- An API Gateway response: status code, headers, and the value passed to
json.dumps as the body. -/
structure Response where
  statusCode : Nat
  headers : List (String × String)
  body : Json

/-- The message string a handler renders for an authentication failure
(str(e) of the raised exception).  validate_token and get_token_from_header
re-raise with the prefixes of auth.py lines 93 and 124; the texts of the
library-raised failures are representative. -/
def errMessage : AuthErr → String
  | .tokenInvalid => "Token validation error: Token is invalid"
  | .headerDecodeError => "Token validation error: Invalid header string"
  | .headerMissingKid => "Token validation error: 'kid'"
  | .keyFetchError => "Token validation error: JWKS fetch failed"
  | .keyEntryError => "Token validation error: 'kid'"
  | .unknownKey => "Token validation error: Public key not found"
  | .signatureIndexError => "Token validation error: list index out of range"
  | .signatureDecodeError => "Token validation error: Invalid base64-encoded string"
  | .signatureInvalid => "Token validation error: Signature verification failed"
  | .claimsDecodeError => "Token validation error: Error decoding token claims."
  | .missingTokenUse => "Token validation error: 'token_use'"
  | .invalidTokenUse => "Token validation error: Token is not a valid token type"
  | .clientMismatch => "Token validation error: Token was not issued for this client"
  | .missingExp => "Token validation error: 'exp'"
  | .expTypeError => "Token validation error: unsupported operand comparison"
  | .tokenExpired => "Token validation error: Token has expired"
  | .missingHeaders => "Error extracting token: 'headers'"
  | .missingAuthHeader => "Error extracting token: Authorization header is missing"
  | .malformedAuthHeader => "Error extracting token: Authorization header is malformed"

/-- Python int(s) on a string: optional surrounding whitespace, optional
sign, at least one digit. -/
def pyParseInt (s : String) : Option Int :=
  let t := (s.data.dropWhile jsonWs).reverse.dropWhile jsonWs |>.reverse
  match t with
  | '-' :: ds => if ds ≠ [] ∧ ds.all Char.isDigit then some (-(digitsToNat ds : Int)) else none
  | '+' :: ds => if ds ≠ [] ∧ ds.all Char.isDigit then some (digitsToNat ds : Int) else none
  | ds => if ds ≠ [] ∧ ds.all Char.isDigit then some (digitsToNat ds : Int) else none

/-- Substring containment on character lists. -/
def containsSub (hay needle : List Char) : Bool :=
  (List.range (hay.length + 1)).any (fun i => (hay.drop i).take needle.length = needle)

/-- Python membership field in value for a JSON value: key membership for an
object, element equality for an array, substring for a string; membership in
a number, boolean or null raises TypeError. -/
def pyContains (j : Json) (field : String) : PyResult Bool :=
  match j with
  | .obj kvs => .ok (kvs.any (fun kv => kv.fst = field))
  | .arr xs => .ok (xs.any (fun x => jsonEq x (.str field)))
  | .str s => .ok (containsSub s.data field.data)
  | _ => .raised

/-- Decimal(str(value)) of ingest-telemetry: a number converts to itself, a
string to the number it spells (integral values in this development), and
any other value raises. -/
def pyDecimalOfStr : Json → PyResult Json
  | .num n => .ok (.num n)
  | .str s =>
    match pyParseInt s with
    | some n => .ok (.num n)
    | none => .raised
  | _ => .raised

/-! ## src/functions/ingest-telemetry/app.py -/

/-- The CORS headers of the ingest OPTIONS response (lines 50-55). -/
def ingestOptionsHeaders : List (String × String) :=
  [("Content-Type", "application/json"), ("Access-Control-Allow-Origin", "*"),
   ("Access-Control-Allow-Headers", "Content-Type"),
   ("Access-Control-Allow-Methods", "OPTIONS,POST,GET")]

/-- The plain response headers of the ingest handler. -/
def ingestHeaders : List (String × String) :=
  [("Content-Type", "application/json"), ("Access-Control-Allow-Origin", "*")]

/-- The required-field scan of ingest lines 90-103: the first required field
not contained in the body fails; a body on which membership raises escapes
to the outer handler. -/
def ingestRequiredCheck (requestBody : Json) : PyResult (Option String) :=
  match pyContains requestBody "deviceId" with
  | .raised => .raised
  | .ok false => .ok (some "deviceId")
  | .ok true =>
    match pyContains requestBody "latitude" with
    | .raised => .raised
    | .ok false => .ok (some "latitude")
    | .ok true =>
      match pyContains requestBody "longitude" with
      | .raised => .raised
      | .ok false => .ok (some "longitude")
      | .ok true =>
        match pyContains requestBody "temperature" with
        | .raised => .raised
        | .ok false => .ok (some "temperature")
        | .ok true => .ok none

/-- The 500 response of the ingest handler's outer except block (message
representative). -/
def ingestServerError : Response :=
  ⟨500, ingestHeaders, .obj [("error", .str "Internal server error"),
                             ("message", .str "unexpected error")]⟩

/-- lambda_handler of ingest-telemetry (lines 29-167): no authentication is
performed; the handler reads only httpMethod and body from the event.
nowIso is datetime.utcnow().isoformat() + Z.  Returns the response and the
item written to the telemetry table, if any. -/
def ingest_lambda_handler (event : Event) (nowIso : String) :
    Response × Option Json :=
  if event.httpMethod = some "OPTIONS" then
    (⟨200, ingestOptionsHeaders, .obj []⟩, none)
  else if ¬ optStrTruthy event.body then
    (⟨400, ingestHeaders, .obj [("error", .str "Missing request body")]⟩, none)
  else
    match jsonLoads (event.body.getD "") with
    | none =>
      (⟨400, ingestHeaders, .obj [("error", .str "Invalid JSON in request body")]⟩, none)
    | some requestBody =>
      match ingestRequiredCheck requestBody with
      | .raised => (ingestServerError, none)
      | .ok (some field) =>
        (⟨400, ingestHeaders, .obj [("error", .str ("Missing required field: " ++ field))]⟩, none)
      | .ok none =>
        match requestBody with
        | .obj kvs =>
          let deviceId := (jGet (.obj kvs) "deviceId").getD .null
          match pyDecimalOfStr ((jGet (.obj kvs) "latitude").getD .null) with
          | .raised => (ingestServerError, none)
          | .ok latitude =>
            match pyDecimalOfStr ((jGet (.obj kvs) "longitude").getD .null) with
            | .raised => (ingestServerError, none)
            | .ok longitude =>
              match pyDecimalOfStr ((jGet (.obj kvs) "temperature").getD .null) with
              | .raised => (ingestServerError, none)
              | .ok temperature =>
                let timestamp :=
                  if jHasKey (.obj kvs) "timestamp" then (jGet (.obj kvs) "timestamp").getD .null
                  else .str nowIso
                let baseKeys := ["deviceId", "timestamp", "latitude", "longitude", "temperature"]
                let item := .obj ([("deviceId", deviceId), ("timestamp", timestamp),
                                   ("latitude", latitude), ("longitude", longitude),
                                   ("temperature", temperature)]
                  ++ kvs.filter (fun kv => ¬ baseKeys.contains kv.fst))
                (⟨201, ingestHeaders,
                  .obj [("message", .str "Telemetry data stored successfully"),
                        ("deviceId", deviceId), ("timestamp", timestamp)]⟩, some item)
        | _ => (ingestServerError, none)

/-! ## src/functions/get-telemetry/app.py -/

/-- The response headers used throughout the get-telemetry handler. -/
def getTelemetryHeaders : List (String × String) :=
  [("Content-Type", "application/json"), ("Access-Control-Allow-Origin", "*"),
   ("Access-Control-Allow-Headers", "Content-Type,Authorization"),
   ("Access-Control-Allow-Methods", "OPTIONS,POST,GET")]

/-- lambda_handler of get-telemetry (lines 43-190).  tableQuery is the
DynamoDB query collaborator, taking the device id, the optional start and
end bounds and the optional limit. -/
def get_telemetry_handler (env : LayerEnv) (jwks : Option Json)
    (rsaVerify : Json → String → List Nat → Bool) (now : Int)
    (tableQuery : String → Option String → Option String → Option Int → List Json)
    (event : Event) : Response :=
  if event.httpMethod = some "OPTIONS" then
    ⟨200, getTelemetryHeaders, .obj []⟩
  else
    match layer_require_auth env jwks rsaVerify now event with
    | .error e =>
      ⟨401, getTelemetryHeaders,
       .obj [("error", .str "Unauthorized"), ("message", .str (errMessage e))]⟩
    | .ok _ =>
      let qp := event.queryStringParameters.getD []
      if qp.isEmpty then
        ⟨400, getTelemetryHeaders, .obj [("error", .str "Missing query parameters")]⟩
      else
        match lookupHeader qp "deviceId" with
        | none =>
          ⟨400, getTelemetryHeaders,
           .obj [("error", .str "Missing required parameter: deviceId")]⟩
        | some deviceId =>
          let startTime := lookupHeader qp "startTime"
          let endTime := lookupHeader qp "endTime"
          let limit := (lookupHeader qp "limit").bind pyParseInt
          let items := tableQuery deviceId startTime endTime limit
          ⟨200, getTelemetryHeaders,
           .obj [("deviceId", .str deviceId), ("count", .num items.length),
                 ("telemetry", .arr items)]⟩

/-! ## src/functions/manage-company/app.py -/

/-- The CORS headers defined at the top of the manage-company handler. -/
def mcCorsHeaders : List (String × String) :=
  [("Access-Control-Allow-Origin", "*"),
   ("Access-Control-Allow-Headers",
    "Content-Type,X-Amz-Date,Authorization,X-Api-Key,X-Amz-Security-Token"),
   ("Access-Control-Allow-Methods", "GET,POST,PUT,DELETE,OPTIONS")]

/-- cors_headers.copy() with Content-Type added, as each operation builds. -/
def mcJsonHeaders : List (String × String) :=
  mcCorsHeaders ++ [("Content-Type", "application/json")]

/-- The company and user-company tables: companyId to item, and
(userId, companyId) to item. -/
structure CompanyState where
  company_table : List (String × Json) := []
  user_company_table : List ((String × String) × Json) := []

/-- DynamoDB get_item on the company table. -/
def companyGet (st : CompanyState) (cid : String) : Option Json :=
  (st.company_table.find? (fun kv => kv.fst = cid)).map Prod.snd

/-- DynamoDB get_item on the user-company table. -/
def ucGet (st : CompanyState) (uid cid : String) : Option Json :=
  (st.user_company_table.find? (fun kv => kv.fst = (uid, cid))).map Prod.snd

/-- Set a key of a JSON object item (DynamoDB SET: replace in place or
append). -/
def jSet (j : Json) (k : String) (v : Json) : Json :=
  match j with
  | .obj kvs =>
    if kvs.any (fun kv => kv.fst = k) then
      .obj (kvs.map (fun kv => if kv.fst = k then (k, v) else kv))
    else .obj (kvs ++ [(k, v)])
  | other => other

/-- Parse an operation body as the manage-company operations do (lines
148-149 and alike): event.get('body', '\x7b\x7d'), empty bodies giving the
empty object, a json.loads failure escaping to the operation's except
block. -/
def mcParseBody (event : Event) : Option Json :=
  let bodyStr := event.body.getD "\x7b\x7d"
  if bodyStr = "" then some (.obj [])
  else jsonLoads bodyStr

/-- The 500 response of a manage-company operation (message representative). -/
def mcServerError (msg : String) : Response :=
  ⟨500, mcJsonHeaders, .obj [("message", .str msg)]⟩

/-- get_company (lines 82-136). -/
def get_company (event : Event) (st : CompanyState) : Response :=
  let qp := event.queryStringParameters.getD []
  match lookupHeader qp "companyId" with
  | some cid =>
    if cid ≠ "" then
      match companyGet st cid with
      | none => ⟨404, mcJsonHeaders, .obj [("message", .str "Company not found")]⟩
      | some company => ⟨200, mcJsonHeaders, .obj [("company", company)]⟩
    else ⟨400, mcJsonHeaders, .obj [("message", .str "Company ID is required")]⟩
  | none => ⟨400, mcJsonHeaders, .obj [("message", .str "Company ID is required")]⟩

/-- create_company (lines 138-204): create the company item and the admin
membership of its creator.  companyId is comp- followed by the uuid
collaborator's value; nowIso is datetime.utcnow().isoformat() + Z. -/
def create_company (event : Event) (userId : String) (st : CompanyState)
    (nowIso uuid : String) : Response × CompanyState :=
  match mcParseBody event with
  | none => (mcServerError "Error creating company", st)
  | some body =>
    let nameV := jGet body "name"
    if ¬ optTruthy nameV then
      (⟨400, mcJsonHeaders, .obj [("message", .str "Company name is required")]⟩, st)
    else
      let cid := "comp-" ++ uuid
      let description := (jGet body "description").getD (.str "")
      let company : Json := .obj [("companyId", .str cid), ("name", nameV.getD .null),
        ("description", description), ("createdBy", .str userId),
        ("createdAt", .str nowIso), ("updatedAt", .str nowIso)]
      let membership : Json := .obj [("userId", .str userId), ("companyId", .str cid),
        ("role", .str "admin"), ("createdAt", .str nowIso)]
      let st2 : CompanyState :=
        { company_table := st.company_table ++ [(cid, company)],
          user_company_table := st.user_company_table ++ [((userId, cid), membership)] }
      (⟨201, mcJsonHeaders,
        .obj [("message", .str "Company created successfully"), ("company", company)]⟩, st2)

/-- The admin-rights guard of update_company (lines 232-247) and
delete_company (lines 315-330): a membership item must exist for the user
and company and carry role admin. -/
def mcCanManage (st : CompanyState) (userId cid : String) : Bool :=
  match ucGet st userId cid with
  | none => false
  | some item =>
    match jGet item "role" with
    | some r => jsonEq r (.str "admin")
    | none => false

/-- update_company (lines 206-289): requires a truthy companyId, then the
admin guard; on success sets updatedAt, name when truthy, and description
when present and not null.  The DynamoDB update creates the item when the
key is absent.  A non-string companyId fails the storage call and lands in
the except block. -/
def update_company (event : Event) (userId : String) (st : CompanyState)
    (nowIso : String) : Response × CompanyState :=
  match mcParseBody event with
  | none => (mcServerError "Error updating company", st)
  | some body =>
    let cidV := jGet body "companyId"
    if ¬ optTruthy cidV then
      (⟨400, mcJsonHeaders, .obj [("message", .str "Company ID is required")]⟩, st)
    else
      match cidV with
      | some (.str cid) =>
        if ¬ mcCanManage st userId cid then
          (⟨403, mcJsonHeaders,
            .obj [("message", .str "You do not have permission to update this company")]⟩, st)
        else
          let old := (companyGet st cid).getD (.obj [("companyId", .str cid)])
          let withTs := jSet old "updatedAt" (.str nowIso)
          let nameV := jGet body "name"
          let withName := if optTruthy nameV then jSet withTs "name" (nameV.getD .null) else withTs
          let descV := jGet body "description"
          let updated :=
            match descV with
            | some .null => withName
            | some d => jSet withName "description" d
            | none => withName
          let st2 : CompanyState :=
            { st with company_table :=
                if (companyGet st cid).isSome then
                  st.company_table.map (fun kv => if kv.fst = cid then (cid, updated) else kv)
                else st.company_table ++ [(cid, updated)] }
          (⟨200, mcJsonHeaders,
            .obj [("message", .str "Company updated successfully"), ("company", updated)]⟩, st2)
      | _ => (mcServerError "Error updating company", st)

/-- delete_company (lines 291-382): requires a truthy companyId, then the
admin guard; on success deletes every membership of the company and then the
company item. -/
def delete_company (event : Event) (userId : String) (st : CompanyState) :
    Response × CompanyState :=
  match mcParseBody event with
  | none => (mcServerError "Error deleting company", st)
  | some body =>
    let cidV := jGet body "companyId"
    if ¬ optTruthy cidV then
      (⟨400, mcJsonHeaders, .obj [("message", .str "Company ID is required")]⟩, st)
    else
      match cidV with
      | some (.str cid) =>
        if ¬ mcCanManage st userId cid then
          (⟨403, mcJsonHeaders,
            .obj [("message", .str "You do not have permission to delete this company")]⟩, st)
        else
          let st2 : CompanyState :=
            { company_table := st.company_table.filter (fun kv => kv.fst ≠ cid),
              user_company_table :=
                st.user_company_table.filter (fun kv => kv.fst.snd ≠ cid) }
          (⟨200, mcJsonHeaders,
            .obj [("message", .str "Company deleted successfully")]⟩, st2)
      | _ => (mcServerError "Error deleting company", st)

/-- Modelled from the spec: manage-company/app.py imports
get_user_id_from_token from its auth module, whose definition is not part of
the repository snapshot; per the spec the AuthenticatedIdentity userId is the
verified subject claim, so the function reads sub from the Claims and fails
when it is not a string. -/
def get_user_id_from_token (claims : Json) : Option String :=
  match jGet claims "sub" with
  | some (.str s) => some s
  | _ => none

/-- The token derivation of the manage-company lambda_handler (lines 41-49):
the raw Authorization value under either exact casing, stripped of every
occurrence of the Bearer prefix. -/
def mcAuthToken (event : Event) : String :=
  let hs := event.headers.getD []
  let a1 := (lookupHeader hs "Authorization").getD ""
  let authHeader := if a1 ≠ "" then a1 else (lookupHeader hs "authorization").getD ""
  if authHeader ≠ "" then pyReplace authHeader "Bearer " "" else ""

/-- lambda_handler of manage-company (lines 18-80): OPTIONS short-circuits
with the bare CORS headers; otherwise the token from mcAuthToken is
validated, any failure giving a 401 whose body carries only a message field;
then the call is dispatched on the HTTP method. -/
def manage_company_handler (env : LayerEnv) (jwks : Option Json)
    (rsaVerify : Json → String → List Nat → Bool) (now : Int)
    (event : Event) (st : CompanyState) (nowIso uuid : String) :
    Response × CompanyState :=
  if event.httpMethod = some "OPTIONS" then
    (⟨200, mcCorsHeaders, .obj []⟩, st)
  else
    match validate_token env jwks rsaVerify now (mcAuthToken event) with
    | .error e =>
      (⟨401, mcCorsHeaders,
        .obj [("message", .str ("Unauthorized: " ++ errMessage e))]⟩, st)
    | .ok claims =>
      match get_user_id_from_token claims with
      | none =>
        (⟨401, mcCorsHeaders,
          .obj [("message", .str "Unauthorized: could not derive the user id")]⟩, st)
      | some userId =>
        if event.httpMethod = some "GET" then (get_company event st, st)
        else if event.httpMethod = some "POST" then create_company event userId st nowIso uuid
        else if event.httpMethod = some "PUT" then update_company event userId st nowIso
        else if event.httpMethod = some "DELETE" then delete_company event userId st
        else (⟨400, mcJsonHeaders, .obj [("message", .str "Unsupported HTTP method")]⟩, st)

/-! ## Concrete fixtures for witnesses and counterexamples

The tokens below are built from their JSON texts through the base64url
encoder, so each segment is exactly what the Python code would receive.  The
signature collaborator verTrue accepts every signature: the properties
checked on these fixtures are about claim validation, which the claims under
study quantify over all signature outcomes. -/

/-- A signature collaborator accepting everything. -/
def verTrue : Json → String → List Nat → Bool := fun _ _ _ => true

/-- Base64url of the token header with kid k12. -/
def hdrB64 : String := b64UrlEncode (strBytes "\x7b\"kid\":\"k12\"\x7d")

/-- A JWKS body with the single key id k12. -/
def jwks1 : Json := .obj [("keys", .arr [.obj [("kid", .str "k12")]])]

/-- A JWKS body whose keys array is empty. -/
def emptyJwks : Json := .obj [("keys", .arr [])]

/-- Claims text of the valid layer-module token. -/
def J1 : String := "\x7b\"token_use\":\"id\",\"aud\":\"cl1\",\"exp\":2000000000\x7d"

/-- Parsed claims of J1. -/
def J1obj : Json :=
  .obj [("token_use", .str "id"), ("aud", .str "cl1"), ("exp", .num 2000000000)]

/-- A well-formed three-segment token over J1. -/
def T1 : String := hdrB64 ++ "." ++ b64UrlEncode (strBytes J1) ++ ".sig0"

/-- Layer environment matching T1. -/
def env1 : LayerEnv := { USER_POOL_ID := some "pool1", USER_POOL_CLIENT_ID := some "cl1" }

/-- Claims text of the valid common-module token (issuer matches env2). -/
def J2 : String :=
  "\x7b\"exp\":2000000000,\"iss\":\"https://cognito-idp.us-east-1.amazonaws.com/pool1\"\x7d"

/-- Parsed claims of J2. -/
def J2obj : Json :=
  .obj [("exp", .num 2000000000),
        ("iss", .str "https://cognito-idp.us-east-1.amazonaws.com/pool1")]

/-- A well-formed three-segment token over J2. -/
def T2 : String := hdrB64 ++ "." ++ b64UrlEncode (strBytes J2) ++ ".sig0"

/-- Common environment matching T2. -/
def env2 : CommonEnv := { COGNITO_USER_POOL_ID := some "pool1" }

/-- Claims text passing every check of the layer verifier but carrying a
foreign issuer. -/
def J3 : String :=
  "\x7b\"token_use\":\"id\",\"aud\":\"cl1\",\"exp\":2000000000,\"iss\":\"https://evil.example/pool\"\x7d"

/-- Parsed claims of J3. -/
def J3obj : Json :=
  .obj [("token_use", .str "id"), ("aud", .str "cl1"), ("exp", .num 2000000000),
        ("iss", .str "https://evil.example/pool")]

/-- A well-formed three-segment token over J3. -/
def T3 : String := hdrB64 ++ "." ++ b64UrlEncode (strBytes J3) ++ ".sig0"

/-- Claims text for the common verifier with a foreign issuer. -/
def J3c : String := "\x7b\"exp\":2000000000,\"iss\":\"https://evil.example/pool\"\x7d"

/-- Parsed claims of J3c. -/
def J3cObj : Json :=
  .obj [("exp", .num 2000000000), ("iss", .str "https://evil.example/pool")]

/-- A well-formed three-segment token over J3c. -/
def T3c : String := hdrB64 ++ "." ++ b64UrlEncode (strBytes J3c) ++ ".sig0"

/-- Claims text of the seven-segment token (45 characters, so its base64url
encoding E4 has 60 characters and no padding). -/
def J4 : String := "\x7b\"token_use\":\"id\",\"aud\":\"c\",\"exp\":2000000000\x7d"

/-- Parsed claims of J4. -/
def J4obj : Json :=
  .obj [("token_use", .str "id"), ("aud", .str "c"), ("exp", .num 2000000000)]

/-- Base64url encoding of J4. -/
def E4 : String := b64UrlEncode (strBytes J4)

/-- A seven-segment token: the claims encoding E4 is cut into five segments,
so that jose's claims decode (which joins the middle segments and discards
the dots) reassembles exactly J4, while the third segment doubles as the
signature the verifier checks over the first two. -/
def T7 : String :=
  hdrB64 ++ "." ++ String.mk (E4.data.take 12) ++ "." ++
  String.mk ((E4.data.drop 12).take 12) ++ "." ++ String.mk ((E4.data.drop 24).take 12) ++ "." ++
  String.mk ((E4.data.drop 36).take 12) ++ "." ++ String.mk (E4.data.drop 48) ++ ".xx"

/-- Layer environment matching T7 (client id c). -/
def env4 : LayerEnv := { USER_POOL_ID := some "pool1", USER_POOL_CLIENT_ID := some "c" }

/-- A GET event with no Authorization header. -/
def eventNoAuth : Event := { httpMethod := some "GET" }

/-! ## Claims -/

/-- C1: the claim that the verifier never returns claims memoized from a
previous request fails on verify_token of functions/common/auth.py: after
the valid token T2 is verified, a second call in the same process on the
unparseable token garbage returns T2's cached claims, whereas a fresh
process returns None for it. -/
theorem c1_memoized_claims_reused :
    (verify_token env2 (some jwks1) verTrue 1700000000 {} T2).snd
      = .ok (some J2obj)
    ∧ (verify_token env2 (some jwks1) verTrue 1700000000
        (verify_token env2 (some jwks1) verTrue 1700000000 {} T2).fst "garbage").snd
      = .ok (some J2obj)
    ∧ (verify_token env2 (some jwks1) verTrue 1700000000 {} "garbage").snd
      = .ok none :=
  ⟨rfl, rfl, rfl⟩

/-- C3: the ingest-telemetry handler performs no authentication: its response
and the telemetry item it writes are unchanged under any modification of the
request headers, in particular of the Authorization header and of its
absence. -/
theorem c3_ingest_ignores_authorization (event : Event)
    (hs : Option (List (String × String))) (nowIso : String) :
    ingest_lambda_handler { event with headers := hs } nowIso
      = ingest_lambda_handler event nowIso := rfl

/-- C4: the claim that every token with other than three dot-separated
segments is rejected fails on validate_token of layers/python/auth.py, whose
structural check only requires at least two segments: the seven-segment
token T7, whose signature segment verifies over its first two segments, is
accepted and its spliced claims are returned. -/
theorem c4_seven_segment_token_accepted :
    (pySplit '.' T7).length = 7
    ∧ validate_token env4 (some jwks1) verTrue 1700000000 T7 = .ok J4obj :=
  ⟨rfl, rfl⟩

/-- C2 counterexample: validate_token of layers/python/auth.py performs no
issuer check: the token T3 passes its structural, key, signature, token-use,
audience and expiration checks and is accepted although its iss claim is a
foreign issuer, different from the one built from the configured region and
pool id. -/
theorem c2_layer_verifier_accepts_foreign_issuer :
    validate_token env1 (some jwks1) verTrue 1700000000 T3 = .ok J3obj
    ∧ jGet J3obj "iss" = some (.str "https://evil.example/pool")
    ∧ "https://evil.example/pool"
        ≠ "https://cognito-idp." ++ env1.AWS_REGION ++ ".amazonaws.com/pool1" :=
  ⟨rfl, rfl, by decide⟩

/-- C6 counterexample: a JWKS with an empty keys array defeats the cache of
get_public_keys (an empty list is falsy, so it is fetched again on every
call): two successful calls both fetch; and validate_token of the layer
performs its own fetch on every verification, with no cache at all. -/
theorem c6_two_successful_calls_fetch_twice :
    (get_public_keys (some emptyJwks) {}).result = some (.arr [])
    ∧ (get_public_keys (some emptyJwks) {}).fetched = true
    ∧ (get_public_keys (some emptyJwks)
        (get_public_keys (some emptyJwks) {}).state).fetched = true
    ∧ (validate_tokenR env1 (some jwks1) verTrue 1700000000 T1).fst = true
    ∧ (validate_tokenR env1 (some jwks1) verTrue 1700000000 T1).snd = .ok J1obj :=
  ⟨rfl, rfl, rfl, rfl, rfl⟩

/-- C7 counterexample: a bearer value stored under the casing AUTHORIZATION
is found by neither extractor, which probe exactly the two spellings
Authorization and authorization; extraction reports a missing header even
though a casing of the key is present. -/
theorem c7_uppercase_casing_not_recognized :
    extract_token_from_header { headers := some [("AUTHORIZATION", "Bearer tok")] }
      = none
    ∧ get_token_from_header
        { httpMethod := some "GET",
          headers := some [("AUTHORIZATION", "Bearer tok")] }
      = .error .missingAuthHeader :=
  ⟨rfl, rfl⟩

/-- C8 counterexample: on an authentication failure the manage-company
handler does return 401, but its body is only a message field: it has no
error field at all, so the claimed body shape with error Unauthorized does
not hold for every handler. -/
theorem c8_manage_company_body_lacks_error_field :
    (manage_company_handler env1 (some jwks1) verTrue 1700000000 eventNoAuth {}
        "2024-01-01T00:00:00Z" "u1").fst.statusCode = 401
    ∧ jGet (manage_company_handler env1 (some jwks1) verTrue 1700000000 eventNoAuth {}
        "2024-01-01T00:00:00Z" "u1").fst.body "error" = none
    ∧ (get_telemetry_handler env1 (some jwks1) verTrue 1700000000
        (fun _ _ _ _ => []) eventNoAuth).statusCode = 401
    ∧ jGet (get_telemetry_handler env1 (some jwks1) verTrue 1700000000
        (fun _ _ _ _ => []) eventNoAuth).body "error" = some (.str "Unauthorized") :=
  ⟨rfl, rfl, rfl, rfl⟩

/-- Equality with a string under the modelled Python equality. -/
theorem jsonEq_str_iff (a : Json) (s : String) : jsonEq a (.str s) = true ↔ a = .str s := by
  cases a <;> simp [jsonEq]

/-- C10: OPTIONS requests bypass authentication entirely: require_auth of the
layer returns the no-auth-required signal for every OPTIONS event, whatever
its headers, and the manage-company handler answers them with the 200 CORS
preflight response, leaving the store untouched. -/
theorem c10_options_bypasses_auth (env : LayerEnv) (jwks : Option Json)
    (rv : Json → String → List Nat → Bool) (now : Int)
    (event : Event) (st : CompanyState) (nowIso uuid : String)
    (h : event.httpMethod = some "OPTIONS") :
    layer_require_auth env jwks rv now event = .ok none
    ∧ manage_company_handler env jwks rv now event st nowIso uuid
        = (⟨200, mcCorsHeaders, .obj []⟩, st) := by
  constructor
  · simp [layer_require_auth, h]
  · simp [manage_company_handler, h]

/-- C10 witness: an OPTIONS event with no headers at all. -/
theorem c10_options_witness :
    ({ httpMethod := some "OPTIONS" } : Event).httpMethod = some "OPTIONS"
    ∧ (layer_require_auth env1 (some jwks1) verTrue 0 { httpMethod := some "OPTIONS" }
        = .ok none
      ∧ manage_company_handler env1 (some jwks1) verTrue 0
          { httpMethod := some "OPTIONS" } {} "t" "u"
        = (⟨200, mcCorsHeaders, .obj []⟩, ({} : CompanyState))) :=
  ⟨rfl, c10_options_bypasses_auth env1 (some jwks1) verTrue 0 _ {} "t" "u" rfl⟩

/-- C8 (amended): every authentication failure kind produces status 401 in
both cited handlers, with no failure kind mapped to a distinct status; the
get-telemetry body is of the claimed error/message shape, while the
manage-company body carries only a message field. -/
theorem c8_auth_failures_uniform_401 :
    (∀ (env : LayerEnv) (jwks : Option Json) (rv : Json → String → List Nat → Bool)
        (now : Int) (tq : String → Option String → Option String → Option Int → List Json)
        (event : Event) (e : AuthErr),
      event.httpMethod ≠ some "OPTIONS" →
      layer_require_auth env jwks rv now event = .error e →
      get_telemetry_handler env jwks rv now tq event =
        ⟨401, getTelemetryHeaders,
         .obj [("error", .str "Unauthorized"), ("message", .str (errMessage e))]⟩)
    ∧ (∀ (env : LayerEnv) (jwks : Option Json) (rv : Json → String → List Nat → Bool)
        (now : Int) (event : Event) (st : CompanyState) (nowIso uuid : String)
        (e : AuthErr),
      event.httpMethod ≠ some "OPTIONS" →
      validate_token env jwks rv now (mcAuthToken event) = .error e →
      manage_company_handler env jwks rv now event st nowIso uuid =
        (⟨401, mcCorsHeaders,
          .obj [("message", .str ("Unauthorized: " ++ errMessage e))]⟩, st)) := by
  constructor
  · intro env jwks rv now tq event e hm ha
    simp [get_telemetry_handler, hm, ha]
  · intro env jwks rv now event st nowIso uuid e hm ha
    simp [manage_company_handler, hm, ha]

/-- C8 witness: a GET event with no headers fails extraction in get-telemetry
and structural validation in manage-company; both answer 401. -/
theorem c8_auth_failures_witness :
    get_telemetry_handler env1 none verTrue 0 (fun _ _ _ _ => []) eventNoAuth =
      ⟨401, getTelemetryHeaders,
       .obj [("error", .str "Unauthorized"), ("message", .str (errMessage .missingHeaders))]⟩
    ∧ manage_company_handler env1 none verTrue 0 eventNoAuth {} "t" "u" =
      (⟨401, mcCorsHeaders,
        .obj [("message", .str ("Unauthorized: " ++ errMessage .tokenInvalid))]⟩,
       ({} : CompanyState)) :=
  ⟨c8_auth_failures_uniform_401.1 env1 none verTrue 0 _ eventNoAuth .missingHeaders
      (by decide) rfl,
   c8_auth_failures_uniform_401.2 env1 none verTrue 0 eventNoAuth {} "t" "u" .tokenInvalid
      (by decide) rfl⟩

/-- C6 (amended): get_public_keys caches a truthy key set: once a call has
returned a truthy keys value, a further call in the same process performs no
fetch and returns the same value.  (A call returning the falsy empty key set
is not cached, and the layer validate_token fetches on every verification:
see the counterexample.) -/
theorem c6_truthy_keyset_cached (f1 f2 : Option Json) (st : AuthState) (j : Json)
    (h1 : (get_public_keys f1 st).result = some j) (h2 : pyTruthy j = true) :
    (get_public_keys f2 (get_public_keys f1 st).state).result = some j
    ∧ (get_public_keys f2 (get_public_keys f1 st).state).fetched = false := by
  by_cases hk : optTruthy st.keys
  · unfold get_public_keys at h1 ⊢
    simp [hk] at h1 ⊢
    simp [h1, optTruthy, h2]
  · unfold get_public_keys at h1 ⊢
    simp [hk] at h1 ⊢
    cases f1 with
    | none => simp at h1
    | some resp =>
      cases hg : jGet resp "keys" with
      | none => simp [hg] at h1
      | some ks =>
        simp [hg] at h1 ⊢
        simp [h1, optTruthy, h2]

/-- C6 witness: after a first call fetches the one-key JWKS, a second call
returns it from the cache even when the network collaborator would fail. -/
theorem c6_truthy_keyset_witness :
    (get_public_keys (some jwks1) {}).result = some (.arr [.obj [("kid", .str "k12")]])
    ∧ pyTruthy (.arr [.obj [("kid", .str "k12")]]) = true
    ∧ (get_public_keys none (get_public_keys (some jwks1) {}).state).result
        = some (.arr [.obj [("kid", .str "k12")]])
    ∧ (get_public_keys none (get_public_keys (some jwks1) {}).state).fetched = false :=
  ⟨rfl, rfl, (c6_truthy_keyset_cached (some jwks1) none {} _ rfl rfl).1,
   (c6_truthy_keyset_cached (some jwks1) none {} _ rfl rfl).2⟩

/-- C7 (amended): both extractors recognize exactly the two spellings
Authorization and authorization, and identically: a bearer value under
either key yields the same token; when neither spelling carries a truthy
value the extraction fails as missing (other casings are not probed: see the
counterexample). -/
theorem c7_exact_casings_recognized :
    (∀ (m : Option String) (q : Option (List (String × String)))
        (b : Option String) (v : String),
      extract_token_from_header ⟨m, some [("Authorization", v)], q, b⟩
        = extract_token_from_header ⟨m, some [("authorization", v)], q, b⟩
      ∧ get_token_from_header ⟨m, some [("Authorization", v)], q, b⟩
        = get_token_from_header ⟨m, some [("authorization", v)], q, b⟩)
    ∧ (∀ (m : Option String) (q : Option (List (String × String)))
        (b : Option String) (v p0 tok : String),
      v ≠ "" → pyLower p0 = "bearer" → pySplitWs v = [p0, tok] →
      extract_token_from_header ⟨m, some [("Authorization", v)], q, b⟩ = some tok
      ∧ get_token_from_header ⟨m, some [("authorization", v)], q, b⟩ = .ok tok)
    ∧ (∀ (m : Option String) (q : Option (List (String × String)))
        (b : Option String) (hs : List (String × String)),
      optStrTruthy (lookupHeader hs "Authorization") = false →
      optStrTruthy (lookupHeader hs "authorization") = false →
      extract_token_from_header ⟨m, some hs, q, b⟩ = none
      ∧ get_token_from_header ⟨m, some hs, q, b⟩ = .error .missingAuthHeader) := by
  refine ⟨?_, ?_, ?_⟩
  · intro m q b v
    by_cases hv : v = ""
    · subst hv
      exact ⟨rfl, rfl⟩
    · constructor
      · simp [extract_token_from_header, lookupHeader, List.find?, optStrTruthy, hv]
      · simp [get_token_from_header, lookupHeader, List.find?, optStrTruthy, hv]
  · intro m q b v p0 tok hv hlow hsp
    constructor
    · simp [extract_token_from_header, lookupHeader, List.find?, optStrTruthy, hv, hsp, hlow]
    · simp [get_token_from_header, lookupHeader, List.find?, optStrTruthy, hv, hsp, hlow]
  · intro m q b hs hA ha
    constructor
    · simp [extract_token_from_header, hA, ha]
    · simp [get_token_from_header, hA, ha]

/-- C7 witness: the bearer value Bearer tok under either exact casing gives
the token tok, and a headers map with neither spelling is a missing
header. -/
theorem c7_exact_casings_witness :
    ("Bearer tok" ≠ "" ∧ pyLower "Bearer" = "bearer"
      ∧ pySplitWs "Bearer tok" = ["Bearer", "tok"])
    ∧ extract_token_from_header
        { httpMethod := some "GET", headers := some [("Authorization", "Bearer tok")] }
        = some "tok"
    ∧ get_token_from_header
        { httpMethod := some "GET", headers := some [("authorization", "Bearer tok")] }
        = .ok "tok"
    ∧ extract_token_from_header { httpMethod := some "GET", headers := some [] } = none :=
  ⟨⟨by decide, rfl, rfl⟩,
   (c7_exact_casings_recognized.2.1 (some "GET") none none "Bearer tok" "Bearer" "tok"
      (by decide) rfl rfl).1,
   (c7_exact_casings_recognized.2.1 (some "GET") none none "Bearer tok" "Bearer" "tok"
      (by decide) rfl rfl).2,
   (c7_exact_casings_recognized.2.2 (some "GET") none none [] rfl rfl).1⟩

/-- C9: an update or delete on a company by a user with no membership record
for it, or whose record's role is not admin, answers 403 and leaves both the
company table and the user-company table unchanged. -/
theorem c9_non_admin_update_delete_rejected
    (event : Event) (userId : String) (st : CompanyState) (nowIso : String)
    (body : Json) (cid : String)
    (hb : mcParseBody event = some body)
    (hc : jGet body "companyId" = some (.str cid))
    (hne : cid ≠ "")
    (hguard : ucGet st userId cid = none
      ∨ ∃ item, ucGet st userId cid = some item ∧ jGet item "role" ≠ some (.str "admin")) :
    (update_company event userId st nowIso).fst.statusCode = 403
    ∧ (update_company event userId st nowIso).snd = st
    ∧ (delete_company event userId st).fst.statusCode = 403
    ∧ (delete_company event userId st).snd = st := by
  have hcm : mcCanManage st userId cid = false := by
    unfold mcCanManage
    rcases hguard with h | ⟨item, hi, hr⟩
    · simp [h]
    · simp only [hi]
      cases hjr : jGet item "role" with
      | none => rfl
      | some r =>
        have hner : r ≠ .str "admin" := fun he => hr (by rw [hjr, he])
        exact Bool.eq_false_iff.mpr
          (fun h => hner ((jsonEq_str_iff r "admin").mp h))
  refine ⟨?_, ?_, ?_, ?_⟩ <;>
    simp [update_company, delete_company, hb, hc, optTruthy, pyTruthy, hne, hcm]

/-- C9 witness: user u1 has no membership record at all for company c1. -/
theorem c9_non_admin_witness :
    mcParseBody { httpMethod := some "PUT", body := some "\x7b\"companyId\":\"c1\"\x7d" }
      = some (.obj [("companyId", .str "c1")])
    ∧ ucGet {} "u1" "c1" = none
    ∧ (update_company { httpMethod := some "PUT", body := some "\x7b\"companyId\":\"c1\"\x7d" }
        "u1" {} "2024-01-01T00:00:00Z").fst.statusCode = 403
    ∧ (update_company { httpMethod := some "PUT", body := some "\x7b\"companyId\":\"c1\"\x7d" }
        "u1" {} "2024-01-01T00:00:00Z").snd = ({} : CompanyState)
    ∧ (delete_company { httpMethod := some "PUT", body := some "\x7b\"companyId\":\"c1\"\x7d" }
        "u1" {}).fst.statusCode = 403
    ∧ (delete_company { httpMethod := some "PUT", body := some "\x7b\"companyId\":\"c1\"\x7d" }
        "u1" {}).snd = ({} : CompanyState) := by
  have h := c9_non_admin_update_delete_rejected
    { httpMethod := some "PUT", body := some "\x7b\"companyId\":\"c1\"\x7d" }
    "u1" {} "2024-01-01T00:00:00Z" (.obj [("companyId", .str "c1")]) "c1"
    rfl rfl (by decide) (Or.inl rfl)
  exact ⟨rfl, rfl, h.1, h.2.1, h.2.2.1, h.2.2.2⟩

/-- C2 (amended): verify_token of functions/common/auth.py does reject
issuer mismatches: with no memoized claims, a token whose decoded iss claim
differs from the issuer built from the configured region and pool id is
never answered with its Claims (the layer validate_token, by contrast,
performs no issuer check: see the counterexample). -/
theorem c2_common_verifier_rejects_issuer_mismatch
    (env : CommonEnv) (fetch : Option Json) (rv : Json → String → List Nat → Bool)
    (now : Int) (st : AuthState) (token : String) (claims iss : Json)
    (hfresh : optTruthy st.claims = false)
    (hclaims : getUnverifiedClaims token = some claims)
    (hiss : jGet claims "iss" = some iss)
    (hmis : jsonEq iss (.str (expectedIssuer env)) = false) :
    ∀ c, (verify_token env fetch rv now st token).snd ≠ .ok (some c) := by
  intro c hok
  unfold verify_token at hok
  simp only [hfresh, Bool.false_eq_true, if_false, hclaims] at hok
  repeat' split at hok
  all_goals simp_all

/-- C2 witness: the fresh-state common verifier refuses the foreign-issuer
token T3c. -/
theorem c2_issuer_mismatch_witness :
    optTruthy ({} : AuthState).claims = false
    ∧ getUnverifiedClaims T3c = some J3cObj
    ∧ jGet J3cObj "iss" = some (.str "https://evil.example/pool")
    ∧ jsonEq (.str "https://evil.example/pool") (.str (expectedIssuer env2)) = false
    ∧ (verify_token env2 (some jwks1) verTrue 1700000000 {} T3c).snd
        ≠ .ok (some J3cObj) :=
  ⟨rfl, rfl, rfl, rfl,
   c2_common_verifier_rejects_issuer_mismatch env2 (some jwks1) verTrue 1700000000 {}
     T3c J3cObj (.str "https://evil.example/pool") rfl rfl rfl rfl J3cObj⟩

/-- A token whose decoded claims are already expired is never accepted by the
layer validate_token, whatever the outcome of every other check. -/
theorem validate_token_expired_never_ok
    (env : LayerEnv) (jwks : Option Json) (rv : Json → String → List Nat → Bool)
    (now : Int) (token : String) (claims : Json) (e : Int)
    (hclaims : getUnverifiedClaims token = some claims)
    (hexp : jGet claims "exp" = some (.num e)) (hlt : e < now) :
    ∀ c, validate_token env jwks rv now token ≠ .ok c := by
  intro c hok
  unfold validate_token validate_tokenR at hok
  simp only [hclaims] at hok
  repeat' split at hok
  all_goals simp_all

set_option maxRecDepth 8192 in
/-- When the layer validate_token reaches its expiration check, the result
is decided exactly by now > exp: the token is refused as expired for
now > exp and the claims are returned for now ≤ exp. -/
theorem validate_token_reaching_exp_check
    (env : LayerEnv) (jwks : Option Json) (rv : Json → String → List Nat → Bool)
    (now : Int) (token : String) (header kid resp key : Json) (keys : List Json)
    (sigSeg : String) (sigBytes : List Nat) (claims tu : Json) (mcid : Option Json)
    (e : Int)
    (h1 : layerHeader token = some header)
    (h2 : jGet header "kid" = some kid)
    (h3 : jwks = some resp)
    (h4 : jGet resp "keys" = some (.arr keys))
    (h5 : layerFindKey keys kid = .ok (some key))
    (h6 : (pySplit '.' token).get? 2 = some sigSeg)
    (h7 : joseB64urlDecode sigSeg = some sigBytes)
    (h8 : rv key ((pySplit '.' token).headD "" ++ "." ++ ((pySplit '.' token).get? 1).getD "")
            sigBytes = true)
    (h9 : getUnverifiedClaims token = some claims)
    (h10 : jGet claims "token_use" = some tu)
    (h11 : (jsonEq tu (.str "access") || jsonEq tu (.str "id")) = true)
    (h12 : (if optTruthy (jGet claims "client_id") then jGet claims "client_id"
            else jGet claims "aud") = mcid)
    (h13 : optTruthy mcid = true)
    (h14 : clientMatches mcid env.USER_POOL_CLIENT_ID = true)
    (h15 : jGet claims "exp" = some (.num e)) :
    validate_token env jwks rv now token
      = if now > e then .error .tokenExpired else .ok claims := by
  have hlen : ¬ ((pySplit '.' token).length < 2) := by
    rcases List.get?_eq_some.mp h6 with ⟨hl, _⟩
    omega
  subst h3
  unfold validate_token validate_tokenR
  rw [if_neg hlen]
  simp only [h1]
  simp only [h2]
  simp only [h4]
  simp only [h5]
  simp only [h6]
  simp only [h7]
  simp only [h8]
  simp only [not_true, Bool.true_eq_false, if_false, ite_false, ite_true]
  simp only [h9]
  simp only [h10]
  simp only [h11]
  simp only [not_true, Bool.true_eq_false, if_false, ite_false, ite_true]
  simp only [h12]
  simp only [h13, h14]
  simp only [not_true, Bool.true_eq_false, Bool.false_or, Bool.or_self, if_false,
    ite_false, ite_true]
  simp only [h15]
  by_cases hc : now > e
  · simp [hc]
  · simp [hc]

/-- A token whose decoded claims are already expired is never accepted by the
common verify_token when no claims are memoized. -/
theorem verify_token_expired_never_ok
    (env : CommonEnv) (fetch : Option Json) (rv : Json → String → List Nat → Bool)
    (now : Int) (st : AuthState) (token : String) (claims : Json) (e : Int)
    (hfresh : optTruthy st.claims = false)
    (hclaims : getUnverifiedClaims token = some claims)
    (hexp : jGet claims "exp" = some (.num e)) (hlt : e < now) :
    ∀ c, (verify_token env fetch rv now st token).snd ≠ .ok (some c) := by
  intro c hok
  unfold verify_token at hok
  simp only [hfresh, Bool.false_eq_true, if_false, hclaims] at hok
  repeat' split at hok
  all_goals simp_all

set_option maxRecDepth 8192 in
/-- When the fresh-state common verify_token reaches its expiration check,
the result is decided exactly by now > exp (the issuer check passing). -/
theorem verify_token_reaching_exp_check
    (env : CommonEnv) (fetch : Option Json) (rv : Json → String → List Nat → Bool)
    (now : Int) (st : AuthState) (token : String) (kid key : Json) (keys : List Json)
    (message encSig : String) (sigBytes : List Nat) (claims iss : Json) (e : Int)
    (hfresh : optTruthy st.claims = false)
    (hkid : (getUnverifiedHeaders token).bind (fun h => jGet h "kid") = some kid)
    (hres : (get_public_keys fetch st).result = some (.arr keys))
    (htr : optTruthy (get_public_keys fetch st).result = true)
    (hfind : commonFindKey keys kid = .ok (some key))
    (hrs : pyRsplit1 '.' token = [message, encSig])
    (hsig : joseB64urlDecode encSig = some sigBytes)
    (hrv : rv key message sigBytes = true)
    (hclaims : getUnverifiedClaims token = some claims)
    (hexp : jGet claims "exp" = some (.num e))
    (hiss : jGet claims "iss" = some iss)
    (hissEq : jsonEq iss (.str (expectedIssuer env)) = true) :
    (verify_token env fetch rv now st token).snd
      = if now > e then .ok none else .ok (some claims) := by
  have htr2 : pyTruthy (.arr keys) = true := by
    rw [hres] at htr
    simpa [optTruthy] using htr
  unfold verify_token
  simp only [hfresh, Bool.false_eq_true, if_false, ite_false]
  simp only [hkid]
  simp only [hres]
  simp only [optTruthy, htr2, not_true, Bool.true_eq_false, if_false, ite_false, ite_true]
  simp only [hfind]
  simp only [hrs]
  simp only [hsig]
  simp only [hrv]
  simp only [not_true, Bool.true_eq_false, if_false, ite_false, ite_true]
  simp only [hclaims]
  simp only [hexp]
  by_cases hc : now > e
  · simp [hc]
  · simp only [hc, if_false, ite_false]
    simp only [hiss]
    simp only [hissEq]
    simp [hc]

/-- C5: both verifiers compare the clock with the exp claim as
time.time() > exp: a token whose decoded claims carry exp strictly below the
current time is never accepted even when its signature verifies (for the
common verifier, with no memoized claims), and when every other check
passes the result is exactly TokenExpired for now > exp and the Claims for
now ≤ exp, the boundary instant included. -/
theorem c5_expiration_check :
    (∀ (env : LayerEnv) (jwks : Option Json) (rv : Json → String → List Nat → Bool)
        (now : Int) (token : String) (claims : Json) (e : Int),
      getUnverifiedClaims token = some claims →
      jGet claims "exp" = some (.num e) → e < now →
      ∀ c, validate_token env jwks rv now token ≠ .ok c)
    ∧ (∀ (env : LayerEnv) (jwks : Option Json) (rv : Json → String → List Nat → Bool)
        (now : Int) (token : String) (header kid resp key : Json) (keys : List Json)
        (sigSeg : String) (sigBytes : List Nat) (claims tu : Json) (mcid : Option Json)
        (e : Int),
      layerHeader token = some header →
      jGet header "kid" = some kid →
      jwks = some resp →
      jGet resp "keys" = some (.arr keys) →
      layerFindKey keys kid = .ok (some key) →
      (pySplit '.' token).get? 2 = some sigSeg →
      joseB64urlDecode sigSeg = some sigBytes →
      rv key ((pySplit '.' token).headD "" ++ "." ++ ((pySplit '.' token).get? 1).getD "")
          sigBytes = true →
      getUnverifiedClaims token = some claims →
      jGet claims "token_use" = some tu →
      (jsonEq tu (.str "access") || jsonEq tu (.str "id")) = true →
      (if optTruthy (jGet claims "client_id") then jGet claims "client_id"
        else jGet claims "aud") = mcid →
      optTruthy mcid = true →
      clientMatches mcid env.USER_POOL_CLIENT_ID = true →
      jGet claims "exp" = some (.num e) →
      validate_token env jwks rv now token
        = if now > e then .error .tokenExpired else .ok claims)
    ∧ (∀ (env : CommonEnv) (fetch : Option Json) (rv : Json → String → List Nat → Bool)
        (now : Int) (st : AuthState) (token : String) (claims : Json) (e : Int),
      optTruthy st.claims = false →
      getUnverifiedClaims token = some claims →
      jGet claims "exp" = some (.num e) → e < now →
      ∀ c, (verify_token env fetch rv now st token).snd ≠ .ok (some c))
    ∧ (∀ (env : CommonEnv) (fetch : Option Json) (rv : Json → String → List Nat → Bool)
        (now : Int) (st : AuthState) (token : String) (kid key : Json) (keys : List Json)
        (message encSig : String) (sigBytes : List Nat) (claims iss : Json) (e : Int),
      optTruthy st.claims = false →
      (getUnverifiedHeaders token).bind (fun h => jGet h "kid") = some kid →
      (get_public_keys fetch st).result = some (.arr keys) →
      optTruthy (get_public_keys fetch st).result = true →
      commonFindKey keys kid = .ok (some key) →
      pyRsplit1 '.' token = [message, encSig] →
      joseB64urlDecode encSig = some sigBytes →
      rv key message sigBytes = true →
      getUnverifiedClaims token = some claims →
      jGet claims "exp" = some (.num e) →
      jGet claims "iss" = some iss →
      jsonEq iss (.str (expectedIssuer env)) = true →
      (verify_token env fetch rv now st token).snd
        = if now > e then .ok none else .ok (some claims)) :=
  ⟨fun env jwks rv now token claims e h1 h2 h3 =>
      validate_token_expired_never_ok env jwks rv now token claims e h1 h2 h3,
   fun env jwks rv now token header kid resp key keys sigSeg sigBytes claims tu mcid e
        h1 h2 h3 h4 h5 h6 h7 h8 h9 h10 h11 h12 h13 h14 h15 =>
      validate_token_reaching_exp_check env jwks rv now token header kid resp key keys
        sigSeg sigBytes claims tu mcid e h1 h2 h3 h4 h5 h6 h7 h8 h9 h10 h11 h12 h13 h14 h15,
   fun env fetch rv now st token claims e h1 h2 h3 h4 =>
      verify_token_expired_never_ok env fetch rv now st token claims e h1 h2 h3 h4,
   fun env fetch rv now st token kid key keys message encSig sigBytes claims iss e
        h1 h2 h3 h4 h5 h6 h7 h8 h9 h10 h11 h12 =>
      verify_token_reaching_exp_check env fetch rv now st token kid key keys message
        encSig sigBytes claims iss e h1 h2 h3 h4 h5 h6 h7 h8 h9 h10 h11 h12⟩

/-- C5 witness: with the clock exactly at the exp instant both verifiers
accept their token (the boundary is included), and one second later both
refuse it. -/
theorem c5_expiration_witness :
    validate_token env1 (some jwks1) verTrue 2000000000 T1 = .ok J1obj
    ∧ validate_token env1 (some jwks1) verTrue 2000000001 T1 ≠ .ok J1obj
    ∧ (verify_token env2 (some jwks1) verTrue 2000000000 {} T2).snd = .ok (some J2obj)
    ∧ (verify_token env2 (some jwks1) verTrue 2000000001 {} T2).snd ≠ .ok (some J2obj) := by
  refine ⟨?_, ?_, ?_, ?_⟩
  · have h := c5_expiration_check.2.1 env1 (some jwks1) verTrue 2000000000 T1
      _ _ jwks1 _ _ _ _ _ _ _ _ rfl rfl rfl rfl rfl rfl rfl rfl rfl rfl rfl rfl rfl
      rfl rfl
    rw [if_neg (by decide)] at h
    exact h
  · exact c5_expiration_check.1 env1 (some jwks1) verTrue 2000000001 T1 _ _
      rfl rfl (by decide) J1obj
  · have h := c5_expiration_check.2.2.2 env2 (some jwks1) verTrue 2000000000 {} T2
      _ _ _ _ _ _ _ _ _ rfl rfl rfl rfl rfl rfl rfl rfl rfl rfl rfl rfl
    rw [if_neg (by decide)] at h
    exact h
  · exact c5_expiration_check.2.2.1 env2 (some jwks1) verTrue 2000000001 {} T2 _ _
      rfl rfl rfl (by decide) J2obj

end CampoVision
